import Mathlib

/-!
Verification of the credit-accounting and transaction-ledger core of the
ghostwriter backend.

The embedding follows the Python source:
- models.py: the User row (credits fields and the add_credits /
  deduct_credits methods) and the Transaction row (the ledger entry).
- main_additions.py: the credit cost table and the credit-gated
  generation endpoints (fiction and biography).
- main.py: the payment-processor webhook handler (stripe_webhook).

The LLM generation call is an external collaborator; its outcome is
modelled by a boolean parameter (jobOk) and the produced story row by its
integer id. Timestamps, password hashing and the HTTP transport are out
of scope; exceptions raised by a handler are modelled as explicit
outcome constructors.
-/

namespace Ghostwriter

/-- The User row of models.py restricted to the fields the credit core
touches. The fields subscription_status, subscription_end_set and
stories_generated are NOT columns of the User model in models.py; the
webhook handler in main.py nevertheless assigns them (in Python,
reading the missing attribute stories_generated raises AttributeError).
The embedding carries them as extra fields defaulting to none / 0 so
that the handler's written effect can be stated. -/
structure User where
  id : Nat
  email : String
  credits_balance : Int
  total_credits_purchased : Int
  total_credits_spent : Int
  stripe_customer_id : Option String := none
  subscription_status : Option String := none
  subscription_end_set : Bool := false
  stories_generated : Int := 0
  deriving DecidableEq, Repr

/-- models.py User.add_credits: balance and lifetime purchased both grow
by the amount. -/
def User.add_credits (u : User) (amount : Int) : User :=
  { u with
    credits_balance := u.credits_balance + amount,
    total_credits_purchased := u.total_credits_purchased + amount }

/-- models.py User.deduct_credits: if the balance covers the amount,
subtract it, bump lifetime spent and return true; otherwise return false
leaving the row unchanged. -/
def User.deduct_credits (u : User) (amount : Int) : Bool × User :=
  if u.credits_balance ≥ amount then
    (true,
     { u with
       credits_balance := u.credits_balance - amount,
       total_credits_spent := u.total_credits_spent + amount })
  else
    (false, u)

/-- The Transaction row of models.py (the ledger entry): type, signed
credit delta, status ("pending", "completed", "failed", "refunded"),
optional linked story and optional external payment identifiers. The
amount_usd float column and the timestamp are out of scope. -/
structure Transaction where
  user_id : Nat
  transaction_type : String
  credits_amount : Int
  description : String
  status : String
  story_id : Option Nat := none
  stripe_payment_intent_id : Option String := none
  stripe_session_id : Option String := none
  deriving DecidableEq, Repr

/-- schemas.py FictionLength. -/
inductive FictionLength where
  | sample
  | novella
  | novel
  deriving DecidableEq, Repr

/-- The string value of the FictionLength enum member. -/
def FictionLength.value : FictionLength → String
  | .sample => "sample"
  | .novella => "novella"
  | .novel => "novel"

/-- schemas.py BiographyLength. -/
inductive BiographyLength where
  | sample
  | short_memoir
  | standard_biography
  | comprehensive
  deriving DecidableEq, Repr

/-- The string value of the BiographyLength enum member. -/
def BiographyLength.value : BiographyLength → String
  | .sample => "sample"
  | .short_memoir => "short_memoir"
  | .standard_biography => "standard_biography"
  | .comprehensive => "comprehensive"

/-- main_additions.py CREDIT_COSTS["fiction"], keyed by the enum's
string value (the dict lookup is total over the validated enum). -/
def CREDIT_COSTS_fiction : FictionLength → Int
  | .sample => 0
  | .novella => 50
  | .novel => 100

/-- main_additions.py CREDIT_COSTS["biography"]. -/
def CREDIT_COSTS_biography : BiographyLength → Int
  | .sample => 0
  | .short_memoir => 50
  | .standard_biography => 75
  | .comprehensive => 125

/-- Outcome of a credit-gated generation endpoint. HTTPException
branches are modelled structurally: insufficientCredits and
deductFailed are the 400 responses, generationFailed the 500 raised
after the refund in the except branch. -/
inductive GenOutcome where
  | sampleStory (story_id : Nat)
  | success (story_id : Nat) (credits_remaining : Int)
  | insufficientCredits (needed : Int) (available : Int)
  | deductFailed
  | generationFailed
  deriving DecidableEq, Repr

/-- main_additions.py generate_fiction_with_credits. The request is
reduced to its story_length; jobOk tells whether the generate_fiction
call returns normally or raises; story_id is the id of the story row it
would create. Returns the response together with the updated user row
and ledger. -/
def generate_fiction_with_credits (story_length : FictionLength)
    (jobOk : Bool) (story_id : Nat) (current_user : User)
    (transactions : List Transaction) :
    GenOutcome × User × List Transaction :=
  let credits_required := CREDIT_COSTS_fiction story_length
  if story_length.value = "sample" then
    (GenOutcome.sampleStory story_id, current_user, transactions)
  else if current_user.credits_balance < credits_required then
    (GenOutcome.insufficientCredits credits_required
       current_user.credits_balance,
     current_user, transactions)
  else
    let d := current_user.deduct_credits credits_required
    if d.1 = false then
      (GenOutcome.deductFailed, d.2, transactions)
    else if jobOk then
      (GenOutcome.success story_id d.2.credits_balance, d.2,
       transactions ++
         [{ user_id := current_user.id,
            transaction_type := "story_generation",
            credits_amount := -credits_required,
            description := "Generated " ++ story_length.value ++ " fiction",
            status := "completed",
            story_id := some story_id }])
    else
      (GenOutcome.generationFailed, d.2.add_credits credits_required,
       transactions)

/-- main_additions.py generate_biography_with_credits. Identical to the
fiction endpoint except for the cost table, the description string, and
that the boolean returned by deduct_credits is ignored (line 252 calls
it without checking the result). -/
def generate_biography_with_credits (story_length : BiographyLength)
    (jobOk : Bool) (story_id : Nat) (current_user : User)
    (transactions : List Transaction) :
    GenOutcome × User × List Transaction :=
  let credits_required := CREDIT_COSTS_biography story_length
  if story_length.value = "sample" then
    (GenOutcome.sampleStory story_id, current_user, transactions)
  else if current_user.credits_balance < credits_required then
    (GenOutcome.insufficientCredits credits_required
       current_user.credits_balance,
     current_user, transactions)
  else
    let u := (current_user.deduct_credits credits_required).2
    if jobOk then
      (GenOutcome.success story_id u.credits_balance, u,
       transactions ++
         [{ user_id := current_user.id,
            transaction_type := "story_generation",
            credits_amount := -credits_required,
            description := "Generated " ++ story_length.value ++ " biography",
            status := "completed",
            story_id := some story_id }])
    else
      (GenOutcome.generationFailed, u.add_credits credits_required,
       transactions)

/-- A verified payment-processor event as seen by the webhook handler
after signature verification: the event type, the checkout session's
customer email and id, the mode, the session identifier (the external
idempotency key) and the credit amount carried in the session metadata
by the purchase_credits checkout. -/
structure StripeEvent where
  type : String
  customer_email : String
  customer : String
  mode : String
  session_id : String
  metadata_credits : Int
  deriving DecidableEq, Repr

/-- db.query(User).filter(User.email == email).first() -/
def findUserByEmail (users : List User) (email : String) : Option User :=
  users.find? (fun u => u.email = email)

/-- main.py stripe_webhook, lines 312 to 328, after successful
signature verification. On checkout.session.completed it finds or
creates the user by the session's customer email, sets the subscription
fields when the mode is subscription, and increments
stories_generated. It never touches credits_balance,
total_credits_purchased or the Transaction table, and never records
session_id. (In Python the increment of the missing stories_generated
attribute raises AttributeError; the embedding gives the handler's
written effect.) A newly created user gets the next id, modelled as the
current list length. -/
def stripe_webhook (event : StripeEvent) (users : List User)
    (transactions : List Transaction) : List User × List Transaction :=
  if event.type = "checkout.session.completed" then
    let applyTo := fun (user : User) =>
      let user :=
        if event.mode = "subscription" then
          { user with
            subscription_status := some "active",
            subscription_end_set := true }
        else user
      { user with stories_generated := user.stories_generated + 1 }
    match findUserByEmail users event.customer_email with
    | some _ =>
      (users.map (fun u =>
         if u.email = event.customer_email then applyTo u else u),
       transactions)
    | none =>
      let user : User :=
        { id := users.length,
          email := event.customer_email,
          credits_balance := 0,
          total_credits_purchased := 0,
          total_credits_spent := 0,
          stripe_customer_id := some event.customer }
      (users ++ [applyTo user], transactions)
  else
    (users, transactions)

/-- The user row created by the signup endpoint of main_additions.py:
all credit fields at their column defaults of 0. -/
def signupUser (id : Nat) (email : String) : User :=
  { id := id,
    email := email,
    credits_balance := 0,
    total_credits_purchased := 0,
    total_credits_spent := 0 }

/-- Per-account state for traces: the account's user row and the
account's ledger entries. -/
structure LedgerState where
  user : User
  txs : List Transaction
  deriving DecidableEq, Repr

/-- One request touching the account: a credit-gated fiction or
biography generation (with the external job outcome), or a verified
payment event delivered to the webhook. -/
inductive Op where
  | fiction (len : FictionLength) (jobOk : Bool) (story_id : Nat)
  | biography (len : BiographyLength) (jobOk : Bool) (story_id : Nat)
  | payment (event : StripeEvent)
  deriving DecidableEq, Repr

/-- Apply one request to the account, through the embedded handlers.
For a payment event the webhook runs against the database holding this
account's row; if the event's email is this account's the row is
updated in place (head of the mapped singleton), otherwise a fresh row
is appended and this account's row, still at the head, is unchanged. -/
def step (s : LedgerState) : Op → LedgerState
  | .fiction len jobOk sid =>
    let r := generate_fiction_with_credits len jobOk sid s.user s.txs
    { user := r.2.1, txs := r.2.2 }
  | .biography len jobOk sid =>
    let r := generate_biography_with_credits len jobOk sid s.user s.txs
    { user := r.2.1, txs := r.2.2 }
  | .payment event =>
    let r := stripe_webhook event [s.user] s.txs
    { user := r.1.headD s.user, txs := r.2 }

/-- Run a sequence of requests. -/
def run (s : LedgerState) (ops : List Op) : LedgerState :=
  ops.foldl step s

/-- Sum of the signed credit deltas of the completed ledger entries:
the reconciliation sum of the spec (completed purchase deltas plus
completed spend deltas plus completed refund deltas). -/
def completedSum (txs : List Transaction) : Int :=
  ((txs.filter (fun t => t.status = "completed")).map
     (fun t => t.credits_amount)).sum

/-!
Interleaving model of two concurrent deduct_credits calls on the same
account, for the concurrent-debit property. models.py deduct_credits
is a read-check (line 52) followed by a read-modify-write of the
balance (lines 53 to 54) with no lock or atomic conditional update, so
another request can run between the check and the write. Each process
is split at exactly that statement boundary.
-/

/-- Program counter of one in-flight deduct_credits call. -/
inductive RacePC where
  | start
  | checked
  | done
  deriving DecidableEq, Repr

/-- Shared balance plus each request's progress and check result. -/
structure RaceState where
  credits_balance : Int
  pc1 : RacePC
  ok1 : Bool
  pc2 : RacePC
  ok2 : Bool
  deriving DecidableEq, Repr

/-- One atomic statement of deduct_credits for the amount 60: at start,
the line 52 comparison reads the shared balance and records the
result; at checked, a passed check performs the line 53 subtraction on
the current shared balance (a failed check returns False without
writing). -/
def raceStepProc (balance : Int) (pc : RacePC) (ok : Bool) :
    Int × RacePC × Bool :=
  match pc with
  | .start => (balance, .checked, decide (balance ≥ 60))
  | .checked =>
    if ok then (balance - 60, .done, ok) else (balance, .done, ok)
  | .done => (balance, .done, ok)

/-- Let the scheduled process (true is process 1) execute one atomic
statement. -/
def raceStep (s : RaceState) (p : Bool) : RaceState :=
  if p then
    let r := raceStepProc s.credits_balance s.pc1 s.ok1
    { s with credits_balance := r.1, pc1 := r.2.1, ok1 := r.2.2 }
  else
    let r := raceStepProc s.credits_balance s.pc2 s.ok2
    { s with credits_balance := r.1, pc2 := r.2.1, ok2 := r.2.2 }

/-- Run a schedule of the two concurrent 60-credit debits. -/
def raceRun (s : RaceState) (sched : List Bool) : RaceState :=
  sched.foldl raceStep s

/-- The account of the concurrent-debit scenario: balance 100, both
requests not yet started. -/
def raceInit : RaceState :=
  { credits_balance := 100, pc1 := .start, ok1 := false,
    pc2 := .start, ok2 := false }

/-- The claimed concurrent-debit property for one schedule: whenever
both requests have run to completion, exactly one succeeded and the
final balance is 40. -/
def concurrentDebitProperty (sched : List Bool) : Prop :=
  (raceRun raceInit sched).pc1 = RacePC.done →
  (raceRun raceInit sched).pc2 = RacePC.done →
  (((raceRun raceInit sched).ok1 = true ↔
      (raceRun raceInit sched).ok2 = false) ∧
   (raceRun raceInit sched).credits_balance = 40)

/-! Helper lemmas. -/

theorem FictionLength.fictionValueEqSample (l : FictionLength) :
    l.value = "sample" ↔ l = FictionLength.sample := by
  cases l <;> simp [FictionLength.value]

theorem BiographyLength.biographyValueEqSample (l : BiographyLength) :
    l.value = "sample" ↔ l = BiographyLength.sample := by
  cases l <;> simp [BiographyLength.value]

theorem CREDIT_COSTS_fiction_nonneg (l : FictionLength) :
    0 ≤ CREDIT_COSTS_fiction l := by
  cases l <;> decide

theorem CREDIT_COSTS_biography_nonneg (l : BiographyLength) :
    0 ≤ CREDIT_COSTS_biography l := by
  cases l <;> decide

theorem User.deduct_credits_of_ge (u : User) (amount : Int)
    (h : amount ≤ u.credits_balance) :
    u.deduct_credits amount =
      (true,
       { u with
         credits_balance := u.credits_balance - amount,
         total_credits_spent := u.total_credits_spent + amount }) := by
  simp [User.deduct_credits, ge_iff_le, h]

theorem completedSum_nil : completedSum [] = 0 := rfl

theorem completedSum_append (l₁ l₂ : List Transaction) :
    completedSum (l₁ ++ l₂) = completedSum l₁ + completedSum l₂ := by
  simp [completedSum]

theorem completedSum_singleton_completed (t : Transaction)
    (h : t.status = "completed") :
    completedSum [t] = t.credits_amount := by
  simp [completedSum, List.filter_singleton, h]

/-- The webhook never changes an existing row's credit fields and never
writes a ledger entry: for a one-user database, the head row after the
handler has the same balance and lifetime counters, and the transaction
list is returned untouched. -/
theorem stripe_webhook_preserves_credits (e : StripeEvent) (u : User)
    (txs : List Transaction) :
    (((stripe_webhook e [u] txs).1.headD u).credits_balance
        = u.credits_balance ∧
     ((stripe_webhook e [u] txs).1.headD u).total_credits_purchased
        = u.total_credits_purchased ∧
     ((stripe_webhook e [u] txs).1.headD u).total_credits_spent
        = u.total_credits_spent) ∧
    (stripe_webhook e [u] txs).2 = txs := by
  unfold stripe_webhook findUserByEmail
  by_cases ht : e.type = "checkout.session.completed"
  · by_cases he : u.email = e.customer_email
    · by_cases hm : e.mode = "subscription" <;>
        simp [ht, he, hm, List.find?_cons]
    · by_cases hm : e.mode = "subscription" <;>
        simp [ht, he, hm, List.find?_cons]
  · simp [ht]

/-- Balance-versus-ledger delta of one fiction request: the balance
moves exactly by the completed-entry delta the request appends. -/
theorem fiction_balance_delta (len : FictionLength) (jobOk : Bool)
    (sid : Nat) (u : User) (txs : List Transaction) :
    ((generate_fiction_with_credits len jobOk sid u txs).2.1).credits_balance
        - u.credits_balance
      = completedSum ((generate_fiction_with_credits len jobOk sid u txs).2.2)
        - completedSum txs := by
  unfold generate_fiction_with_credits
  by_cases hs : len.value = "sample"
  · simp [hs]
  · by_cases hb : u.credits_balance < CREDIT_COSTS_fiction len
    · simp [hs, hb]
    · have hge : CREDIT_COSTS_fiction len ≤ u.credits_balance := not_lt.mp hb
      cases jobOk
      · simp [hs, hb, User.deduct_credits_of_ge u _ hge, User.add_credits]
      · simp [hs, hb, User.deduct_credits_of_ge u _ hge, completedSum_append,
          completedSum_singleton_completed]

/-- Balance-versus-ledger delta of one biography request. -/
theorem biography_balance_delta (len : BiographyLength) (jobOk : Bool)
    (sid : Nat) (u : User) (txs : List Transaction) :
    ((generate_biography_with_credits len jobOk sid u txs).2.1).credits_balance
        - u.credits_balance
      = completedSum
          ((generate_biography_with_credits len jobOk sid u txs).2.2)
        - completedSum txs := by
  unfold generate_biography_with_credits
  by_cases hs : len.value = "sample"
  · simp [hs]
  · by_cases hb : u.credits_balance < CREDIT_COSTS_biography len
    · simp [hs, hb]
    · have hge : CREDIT_COSTS_biography len ≤ u.credits_balance :=
        not_lt.mp hb
      cases jobOk
      · simp [hs, hb, User.deduct_credits_of_ge u _ hge, User.add_credits]
      · simp [hs, hb, User.deduct_credits_of_ge u _ hge, completedSum_append,
          completedSum_singleton_completed]

/-- Each request moves the balance by exactly the change in the
completed-entry sum of the account's ledger. -/
theorem step_balance_delta (s : LedgerState) (op : Op) :
    (step s op).user.credits_balance - s.user.credits_balance
      = completedSum (step s op).txs - completedSum s.txs := by
  cases op with
  | fiction len jobOk sid =>
    simpa [step] using fiction_balance_delta len jobOk sid s.user s.txs
  | biography len jobOk sid =>
    simpa [step] using biography_balance_delta len jobOk sid s.user s.txs
  | payment e =>
    have h := stripe_webhook_preserves_credits e s.user s.txs
    show ((stripe_webhook e [s.user] s.txs).1.headD s.user).credits_balance
          - s.user.credits_balance
        = completedSum (stripe_webhook e [s.user] s.txs).2
          - completedSum s.txs
    rw [h.1.1, h.2]
    simp

/-- A fiction request keeps a nonnegative balance nonnegative: the
debit only fires when the balance covers the cost. -/
theorem fiction_balance_nonneg (len : FictionLength) (jobOk : Bool)
    (sid : Nat) (u : User) (txs : List Transaction)
    (h : 0 ≤ u.credits_balance) :
    0 ≤ ((generate_fiction_with_credits len jobOk sid u txs).2.1).credits_balance := by
  unfold generate_fiction_with_credits
  by_cases hs : len.value = "sample"
  · simpa [hs] using h
  · by_cases hb : u.credits_balance < CREDIT_COSTS_fiction len
    · simpa [hs, hb] using h
    · have hge : CREDIT_COSTS_fiction len ≤ u.credits_balance := not_lt.mp hb
      cases jobOk <;>
        simp [hs, hb, User.deduct_credits_of_ge u _ hge, User.add_credits] <;>
        omega

/-- A biography request keeps a nonnegative balance nonnegative. -/
theorem biography_balance_nonneg (len : BiographyLength) (jobOk : Bool)
    (sid : Nat) (u : User) (txs : List Transaction)
    (h : 0 ≤ u.credits_balance) :
    0 ≤ ((generate_biography_with_credits len jobOk sid u txs).2.1).credits_balance := by
  unfold generate_biography_with_credits
  by_cases hs : len.value = "sample"
  · simpa [hs] using h
  · by_cases hb : u.credits_balance < CREDIT_COSTS_biography len
    · simpa [hs, hb] using h
    · have hge : CREDIT_COSTS_biography len ≤ u.credits_balance :=
        not_lt.mp hb
      cases jobOk <;>
        simp [hs, hb, User.deduct_credits_of_ge u _ hge, User.add_credits] <;>
        omega

/-- A fiction request never decreases the lifetime counters. -/
theorem fiction_counters_mono (len : FictionLength) (jobOk : Bool)
    (sid : Nat) (u : User) (txs : List Transaction) :
    u.total_credits_purchased
        ≤ ((generate_fiction_with_credits len jobOk sid u txs).2.1).total_credits_purchased ∧
    u.total_credits_spent
        ≤ ((generate_fiction_with_credits len jobOk sid u txs).2.1).total_credits_spent := by
  have hc := CREDIT_COSTS_fiction_nonneg len
  unfold generate_fiction_with_credits
  by_cases hs : len.value = "sample"
  · simp [hs]
  · by_cases hb : u.credits_balance < CREDIT_COSTS_fiction len
    · simp [hs, hb]
    · have hge : CREDIT_COSTS_fiction len ≤ u.credits_balance := not_lt.mp hb
      cases jobOk <;>
        simp [hs, hb, User.deduct_credits_of_ge u _ hge, User.add_credits] <;>
        omega

/-- A biography request never decreases the lifetime counters. -/
theorem biography_counters_mono (len : BiographyLength) (jobOk : Bool)
    (sid : Nat) (u : User) (txs : List Transaction) :
    u.total_credits_purchased
        ≤ ((generate_biography_with_credits len jobOk sid u txs).2.1).total_credits_purchased ∧
    u.total_credits_spent
        ≤ ((generate_biography_with_credits len jobOk sid u txs).2.1).total_credits_spent := by
  have hc := CREDIT_COSTS_biography_nonneg len
  unfold generate_biography_with_credits
  by_cases hs : len.value = "sample"
  · simp [hs]
  · by_cases hb : u.credits_balance < CREDIT_COSTS_biography len
    · simp [hs, hb]
    · have hge : CREDIT_COSTS_biography len ≤ u.credits_balance :=
        not_lt.mp hb
      cases jobOk <;>
        simp [hs, hb, User.deduct_credits_of_ge u _ hge, User.add_credits] <;>
        omega

/-- One request keeps a nonnegative balance nonnegative. -/
theorem step_balance_nonneg (s : LedgerState) (op : Op)
    (h : 0 ≤ s.user.credits_balance) :
    0 ≤ (step s op).user.credits_balance := by
  cases op with
  | fiction len jobOk sid =>
    simpa [step] using fiction_balance_nonneg len jobOk sid s.user s.txs h
  | biography len jobOk sid =>
    simpa [step] using biography_balance_nonneg len jobOk sid s.user s.txs h
  | payment e =>
    have hp := stripe_webhook_preserves_credits e s.user s.txs
    show 0 ≤ ((stripe_webhook e [s.user] s.txs).1.headD s.user).credits_balance
    rw [hp.1.1]
    exact h

/-- One request never decreases the lifetime counters. -/
theorem step_counters_mono (s : LedgerState) (op : Op) :
    s.user.total_credits_purchased
        ≤ (step s op).user.total_credits_purchased ∧
    s.user.total_credits_spent ≤ (step s op).user.total_credits_spent := by
  cases op with
  | fiction len jobOk sid =>
    simpa [step] using fiction_counters_mono len jobOk sid s.user s.txs
  | biography len jobOk sid =>
    simpa [step] using biography_counters_mono len jobOk sid s.user s.txs
  | payment e =>
    have hp := stripe_webhook_preserves_credits e s.user s.txs
    constructor
    · show s.user.total_credits_purchased
          ≤ ((stripe_webhook e [s.user] s.txs).1.headD s.user).total_credits_purchased
      rw [hp.1.2.1]
    · show s.user.total_credits_spent
          ≤ ((stripe_webhook e [s.user] s.txs).1.headD s.user).total_credits_spent
      rw [hp.1.2.2]

/-- Running any sequence keeps a nonnegative balance nonnegative. -/
theorem run_balance_nonneg (ops : List Op) (s : LedgerState)
    (h : 0 ≤ s.user.credits_balance) :
    0 ≤ (run s ops).user.credits_balance := by
  induction ops generalizing s with
  | nil => exact h
  | cons op rest ih => exact ih (step s op) (step_balance_nonneg s op h)

/-- Running any sequence never decreases the lifetime counters. -/
theorem run_counters_mono (ops : List Op) (s : LedgerState) :
    s.user.total_credits_purchased
        ≤ (run s ops).user.total_credits_purchased ∧
    s.user.total_credits_spent ≤ (run s ops).user.total_credits_spent := by
  induction ops generalizing s with
  | nil => exact ⟨le_refl _, le_refl _⟩
  | cons op rest ih =>
    have h1 := step_counters_mono s op
    have h2 := ih (step s op)
    exact ⟨le_trans h1.1 h2.1, le_trans h1.2 h2.2⟩

/-- Running any sequence preserves the reconciliation equation. -/
theorem run_reconciles (ops : List Op) (s : LedgerState)
    (h : s.user.credits_balance = completedSum s.txs) :
    (run s ops).user.credits_balance = completedSum (run s ops).txs := by
  induction ops generalizing s with
  | nil => exact h
  | cons op rest ih =>
    have hd := step_balance_delta s op
    exact ih (step s op) (by omega)

/-! Concrete fixtures used by the closed theorems and witnesses. -/

/-- Email of the concrete purchasing account. -/
def buyerEmail : String := "buyer@example.com"

/-- A concrete verified checkout.session.completed event for a micro
pack purchase (20 credits in the session metadata written by the
purchase_credits checkout), delivered for the buyer's account. -/
def packEvent : StripeEvent :=
  { type := "checkout.session.completed",
    customer_email := buyerEmail,
    customer := "cus_001",
    mode := "payment",
    session_id := "cs_test_001",
    metadata_credits := 20 }

/-- The buyer's account fresh from signup: balance 0. -/
def buyer : User := signupUser 1 buyerEmail

/-- An account holding exactly 50 credits. -/
def rich : User :=
  { signupUser 2 ("rich@example.com") with credits_balance := 50 }

/-- Deliver one verified payment event to the webhook (the spec's
apply_payment_event, as the code implements it). -/
def applyPaymentEvent (e : StripeEvent)
    (db : List User × List Transaction) : List User × List Transaction :=
  stripe_webhook e db.1 db.2

/-! The claim theorems. -/

/-- Claim C1. The claim says a verified checkout.session.completed
event yields a completed purchase ledger entry, credits the balance and
total_credits_purchased by the pack amount, and stores the session id.
The embedded handler does none of this: on the concrete micro-pack
event for an account at balance 0 it leaves the balance and the
lifetime purchased counter at 0 and the transaction table empty (so no
external identifier is stored either). This supports the code_bug
verdict for C1. -/
theorem c1_webhook_applies_no_credit :
    ((applyPaymentEvent packEvent ([buyer], [])).1.headD buyer).credits_balance
        = 0 ∧
    ((applyPaymentEvent packEvent ([buyer], [])).1.headD buyer).total_credits_purchased
        = 0 ∧
    (applyPaymentEvent packEvent ([buyer], [])).2 = [] := by
  decide

/-- Claim C3. The claim says event application is guarded by an
external-identifier lookup so redelivery is a no-op. The embedded
handler stores no identifier and performs no lookup: after one and
after three deliveries of the same event the balance and purchased
counter are still 0 (the pack is never credited, instead of exactly
once) and the ledger is empty, while the one field the handler does
write, stories_generated, grows with every delivery (3 after three
deliveries, not 1), showing there is no idempotency guard at all. This
supports the code_bug verdict for C3. -/
theorem c3_webhook_redelivery_unguarded :
    (((applyPaymentEvent packEvent ([buyer], [])).1.headD buyer).credits_balance
        = 0 ∧
     ((applyPaymentEvent packEvent (applyPaymentEvent packEvent
          (applyPaymentEvent packEvent ([buyer], [])))).1.headD buyer).credits_balance
        = 0 ∧
     ((applyPaymentEvent packEvent (applyPaymentEvent packEvent
          (applyPaymentEvent packEvent ([buyer], [])))).1.headD buyer).total_credits_purchased
        = 0 ∧
     (applyPaymentEvent packEvent (applyPaymentEvent packEvent
          (applyPaymentEvent packEvent ([buyer], [])))).2 = []) ∧
    ((applyPaymentEvent packEvent ([buyer], [])).1.headD buyer).stories_generated
        = 1 ∧
    ((applyPaymentEvent packEvent (applyPaymentEvent packEvent
         (applyPaymentEvent packEvent ([buyer], [])))).1.headD buyer).stories_generated
        = 3 := by
  decide

/-- Claim C2: starting from the signup state, after any sequence of
credit-gated generations (succeeding or failing), free samples and
payment events, the balance equals the sum of the completed ledger
entries' signed deltas. -/
theorem c2_ledger_reconciles (id : Nat) (email : String) (ops : List Op) :
    (run { user := signupUser id email, txs := [] } ops).user.credits_balance
      = completedSum (run { user := signupUser id email, txs := [] } ops).txs :=
  run_reconciles ops _ rfl

/-- Claim C8: from the signup state the balance never goes negative,
and the lifetime purchased and spent counters never decrease along any
continuation of the trace. -/
theorem c8_balance_nonneg_counters_monotone (id : Nat) (email : String)
    (ops more : List Op) :
    0 ≤ (run { user := signupUser id email, txs := [] } ops).user.credits_balance ∧
    (run { user := signupUser id email, txs := [] } ops).user.total_credits_purchased
      ≤ (run { user := signupUser id email, txs := [] } (ops ++ more)).user.total_credits_purchased ∧
    (run { user := signupUser id email, txs := [] } ops).user.total_credits_spent
      ≤ (run { user := signupUser id email, txs := [] } (ops ++ more)).user.total_credits_spent := by
  have hsplit : run { user := signupUser id email, txs := [] } (ops ++ more)
      = run (run { user := signupUser id email, txs := [] } ops) more := by
    simp [run, List.foldl_append]
  refine ⟨run_balance_nonneg ops _ (le_refl 0), ?_, ?_⟩
  · rw [hsplit]
    exact (run_counters_mono more _).1
  · rw [hsplit]
    exact (run_counters_mono more _).2

/-- Claim C5: a paid (non-sample) generation request against a balance
strictly below the required cost returns the insufficient-credits error
with the user row and the ledger returned exactly as they were, for
both the fiction and the biography endpoint. -/
theorem c5_insufficient_credits_no_state_change
    (flen : FictionLength) (blen : BiographyLength) (fOk bOk : Bool)
    (fsid bsid : Nat) (u : User) (txs : List Transaction)
    (hf : flen ≠ FictionLength.sample)
    (hfb : u.credits_balance < CREDIT_COSTS_fiction flen)
    (hb : blen ≠ BiographyLength.sample)
    (hbb : u.credits_balance < CREDIT_COSTS_biography blen) :
    generate_fiction_with_credits flen fOk fsid u txs
      = (GenOutcome.insufficientCredits (CREDIT_COSTS_fiction flen)
           u.credits_balance, u, txs) ∧
    generate_biography_with_credits blen bOk bsid u txs
      = (GenOutcome.insufficientCredits (CREDIT_COSTS_biography blen)
           u.credits_balance, u, txs) := by
  have hf2 : ¬ flen.value = "sample" := by
    simpa [FictionLength.fictionValueEqSample] using hf
  have hb2 : ¬ blen.value = "sample" := by
    simpa [BiographyLength.biographyValueEqSample] using hb
  constructor
  · unfold generate_fiction_with_credits
    simp [hf2, hfb]
  · unfold generate_biography_with_credits
    simp [hb2, hbb]

/-- Witness for claim C5 at a concrete input: novella (cost 50) and
short memoir (cost 50) against the freshly signed-up buyer at
balance 0. -/
theorem c5_insufficient_credits_no_state_change_witness :
    (FictionLength.novella ≠ FictionLength.sample ∧
     buyer.credits_balance < CREDIT_COSTS_fiction FictionLength.novella ∧
     BiographyLength.short_memoir ≠ BiographyLength.sample ∧
     buyer.credits_balance
       < CREDIT_COSTS_biography BiographyLength.short_memoir) ∧
    generate_fiction_with_credits FictionLength.novella true 1 buyer []
      = (GenOutcome.insufficientCredits 50 0, buyer, []) ∧
    generate_biography_with_credits BiographyLength.short_memoir true 1 buyer []
      = (GenOutcome.insufficientCredits 50 0, buyer, []) :=
  ⟨⟨by decide, by decide, by decide, by decide⟩,
   (c5_insufficient_credits_no_state_change FictionLength.novella
      BiographyLength.short_memoir true true 1 1 buyer []
      (by decide) (by decide) (by decide) (by decide)).1,
   (c5_insufficient_credits_no_state_change FictionLength.novella
      BiographyLength.short_memoir true true 1 1 buyer []
      (by decide) (by decide) (by decide) (by decide)).2⟩

/-- Claim C6: a paid generation with sufficient balance whose job
succeeds debits exactly the required credits, bumps lifetime spent by
the same amount, appends a completed spend entry linked to the produced
story, and returns success carrying the new balance, for both
endpoints. -/
theorem c6_success_path_debits_and_logs
    (flen : FictionLength) (blen : BiographyLength) (fsid bsid : Nat)
    (u : User) (txs : List Transaction)
    (hf : flen ≠ FictionLength.sample)
    (hfb : CREDIT_COSTS_fiction flen ≤ u.credits_balance)
    (hb : blen ≠ BiographyLength.sample)
    (hbb : CREDIT_COSTS_biography blen ≤ u.credits_balance) :
    generate_fiction_with_credits flen true fsid u txs
      = (GenOutcome.success fsid
           (u.credits_balance - CREDIT_COSTS_fiction flen),
         { u with
           credits_balance := u.credits_balance - CREDIT_COSTS_fiction flen,
           total_credits_spent :=
             u.total_credits_spent + CREDIT_COSTS_fiction flen },
         txs ++
           [{ user_id := u.id,
              transaction_type := "story_generation",
              credits_amount := -(CREDIT_COSTS_fiction flen),
              description := "Generated " ++ flen.value ++ " fiction",
              status := "completed",
              story_id := some fsid }]) ∧
    generate_biography_with_credits blen true bsid u txs
      = (GenOutcome.success bsid
           (u.credits_balance - CREDIT_COSTS_biography blen),
         { u with
           credits_balance := u.credits_balance - CREDIT_COSTS_biography blen,
           total_credits_spent :=
             u.total_credits_spent + CREDIT_COSTS_biography blen },
         txs ++
           [{ user_id := u.id,
              transaction_type := "story_generation",
              credits_amount := -(CREDIT_COSTS_biography blen),
              description := "Generated " ++ blen.value ++ " biography",
              status := "completed",
              story_id := some bsid }]) := by
  have hf2 : ¬ flen.value = "sample" := by
    simpa [FictionLength.fictionValueEqSample] using hf
  have hb2 : ¬ blen.value = "sample" := by
    simpa [BiographyLength.biographyValueEqSample] using hb
  constructor
  · unfold generate_fiction_with_credits
    simp [hf2, not_lt.mpr hfb, User.deduct_credits_of_ge u _ hfb]
  · unfold generate_biography_with_credits
    simp [hb2, not_lt.mpr hbb, User.deduct_credits_of_ge u _ hbb]

/-- Witness for claim C6: novella and short memoir (cost 50 each)
against the account holding exactly 50 credits. -/
theorem c6_success_path_debits_and_logs_witness :
    (FictionLength.novella ≠ FictionLength.sample ∧
     CREDIT_COSTS_fiction FictionLength.novella ≤ rich.credits_balance ∧
     BiographyLength.short_memoir ≠ BiographyLength.sample ∧
     CREDIT_COSTS_biography BiographyLength.short_memoir
       ≤ rich.credits_balance) ∧
    generate_fiction_with_credits FictionLength.novella true 7 rich []
      = (GenOutcome.success 7 0,
         { rich with credits_balance := 0, total_credits_spent := 50 },
         [{ user_id := 2,
            transaction_type := "story_generation",
            credits_amount := -50,
            description := "Generated novella fiction",
            status := "completed",
            story_id := some 7 }]) ∧
    generate_biography_with_credits BiographyLength.short_memoir true 8 rich []
      = (GenOutcome.success 8 0,
         { rich with credits_balance := 0, total_credits_spent := 50 },
         [{ user_id := 2,
            transaction_type := "story_generation",
            credits_amount := -50,
            description := "Generated short_memoir biography",
            status := "completed",
            story_id := some 8 }]) :=
  ⟨⟨by decide, by decide, by decide, by decide⟩,
   by
     have h := c6_success_path_debits_and_logs FictionLength.novella
       BiographyLength.short_memoir 7 8 rich []
       (by decide) (by decide) (by decide) (by decide)
     exact ⟨by rw [h.1]; decide, by rw [h.2]; decide⟩⟩

/-- Claim C7: when the job of a paid generation fails after the debit,
the automatic refund in the except branch restores the balance to its
pre-debit value, for both endpoints. -/
theorem c7_failed_job_balance_restored
    (flen : FictionLength) (blen : BiographyLength) (fsid bsid : Nat)
    (u : User) (txs : List Transaction)
    (hf : flen ≠ FictionLength.sample)
    (hfb : CREDIT_COSTS_fiction flen ≤ u.credits_balance)
    (hb : blen ≠ BiographyLength.sample)
    (hbb : CREDIT_COSTS_biography blen ≤ u.credits_balance) :
    ((generate_fiction_with_credits flen false fsid u txs).2.1).credits_balance
      = u.credits_balance ∧
    ((generate_biography_with_credits blen false bsid u txs).2.1).credits_balance
      = u.credits_balance := by
  have hf2 : ¬ flen.value = "sample" := by
    simpa [FictionLength.fictionValueEqSample] using hf
  have hb2 : ¬ blen.value = "sample" := by
    simpa [BiographyLength.biographyValueEqSample] using hb
  constructor
  · unfold generate_fiction_with_credits
    simp [hf2, not_lt.mpr hfb, User.deduct_credits_of_ge u _ hfb,
      User.add_credits]
  · unfold generate_biography_with_credits
    simp [hb2, not_lt.mpr hbb, User.deduct_credits_of_ge u _ hbb,
      User.add_credits]

/-- Witness for claim C7: failed novella and short-memoir jobs from
balance 50 end back at balance 50. -/
theorem c7_failed_job_balance_restored_witness :
    (FictionLength.novella ≠ FictionLength.sample ∧
     CREDIT_COSTS_fiction FictionLength.novella ≤ rich.credits_balance ∧
     BiographyLength.short_memoir ≠ BiographyLength.sample ∧
     CREDIT_COSTS_biography BiographyLength.short_memoir
       ≤ rich.credits_balance) ∧
    ((generate_fiction_with_credits FictionLength.novella false 7 rich []).2.1).credits_balance
      = 50 ∧
    ((generate_biography_with_credits BiographyLength.short_memoir false 8 rich []).2.1).credits_balance
      = 50 :=
  ⟨⟨by decide, by decide, by decide, by decide⟩,
   (c7_failed_job_balance_restored FictionLength.novella
      BiographyLength.short_memoir 7 8 rich []
      (by decide) (by decide) (by decide) (by decide)).1,
   (c7_failed_job_balance_restored FictionLength.novella
      BiographyLength.short_memoir 7 8 rich []
      (by decide) (by decide) (by decide) (by decide)).2⟩

/-- Claim C4 counterexample: a novella generation (cost 50, debit
succeeds from balance 50) whose job then fails leaves the transaction
table EMPTY: no refund ledger entry is written and no entry is marked
refunded (there is not even a spend entry for the failed job, since the
handler only writes the spend transaction on success). The balance is
restored to 50, so only the credit-back half of the claim holds. -/
theorem c4_counterexample_no_refund_entry :
    (generate_fiction_with_credits FictionLength.novella false 7 rich []).2.2
      = [] ∧
    ((generate_fiction_with_credits FictionLength.novella false 7 rich []).2.1).credits_balance
      = 50 := by
  decide

/-- Claim C4 amended: on a paid generation whose job fails after a
successful debit, the handler restores the balance by add_credits
(which also bumps total_credits_purchased by the cost, while the debit
bumped total_credits_spent), raises the generation-failed error, and
leaves the ledger exactly as it was: no refund entry is written, no
spend entry exists or is marked refunded, and a repeated failure
credits back each time within its own request (there is no separate
refund operation to repeat). -/
theorem c4_amended_refund_credits_without_ledger
    (flen : FictionLength) (blen : BiographyLength) (fsid bsid : Nat)
    (u : User) (txs : List Transaction)
    (hf : flen ≠ FictionLength.sample)
    (hfb : CREDIT_COSTS_fiction flen ≤ u.credits_balance)
    (hb : blen ≠ BiographyLength.sample)
    (hbb : CREDIT_COSTS_biography blen ≤ u.credits_balance) :
    ((generate_fiction_with_credits flen false fsid u txs).1
        = GenOutcome.generationFailed ∧
     ((generate_fiction_with_credits flen false fsid u txs).2.1).credits_balance
        = u.credits_balance ∧
     ((generate_fiction_with_credits flen false fsid u txs).2.1).total_credits_purchased
        = u.total_credits_purchased + CREDIT_COSTS_fiction flen ∧
     ((generate_fiction_with_credits flen false fsid u txs).2.1).total_credits_spent
        = u.total_credits_spent + CREDIT_COSTS_fiction flen ∧
     (generate_fiction_with_credits flen false fsid u txs).2.2 = txs) ∧
    ((generate_biography_with_credits blen false bsid u txs).1
        = GenOutcome.generationFailed ∧
     ((generate_biography_with_credits blen false bsid u txs).2.1).credits_balance
        = u.credits_balance ∧
     ((generate_biography_with_credits blen false bsid u txs).2.1).total_credits_purchased
        = u.total_credits_purchased + CREDIT_COSTS_biography blen ∧
     ((generate_biography_with_credits blen false bsid u txs).2.1).total_credits_spent
        = u.total_credits_spent + CREDIT_COSTS_biography blen ∧
     (generate_biography_with_credits blen false bsid u txs).2.2 = txs) := by
  have hf2 : ¬ flen.value = "sample" := by
    simpa [FictionLength.fictionValueEqSample] using hf
  have hb2 : ¬ blen.value = "sample" := by
    simpa [BiographyLength.biographyValueEqSample] using hb
  constructor
  · unfold generate_fiction_with_credits
    simp [hf2, not_lt.mpr hfb, User.deduct_credits_of_ge u _ hfb,
      User.add_credits]
  · unfold generate_biography_with_credits
    simp [hb2, not_lt.mpr hbb, User.deduct_credits_of_ge u _ hbb,
      User.add_credits]

/-- Witness for the amended claim C4 at the concrete failed novella and
short-memoir jobs from balance 50. -/
theorem c4_amended_refund_credits_without_ledger_witness :
    (FictionLength.novella ≠ FictionLength.sample ∧
     CREDIT_COSTS_fiction FictionLength.novella ≤ rich.credits_balance ∧
     BiographyLength.short_memoir ≠ BiographyLength.sample ∧
     CREDIT_COSTS_biography BiographyLength.short_memoir
       ≤ rich.credits_balance) ∧
    ((generate_fiction_with_credits FictionLength.novella false 7 rich []).1
        = GenOutcome.generationFailed ∧
     ((generate_fiction_with_credits FictionLength.novella false 7 rich []).2.1).credits_balance
        = 50 ∧
     ((generate_fiction_with_credits FictionLength.novella false 7 rich []).2.1).total_credits_purchased
        = 50 ∧
     ((generate_fiction_with_credits FictionLength.novella false 7 rich []).2.1).total_credits_spent
        = 50 ∧
     (generate_fiction_with_credits FictionLength.novella false 7 rich []).2.2
        = []) ∧
    ((generate_biography_with_credits BiographyLength.short_memoir false 8 rich []).1
        = GenOutcome.generationFailed ∧
     ((generate_biography_with_credits BiographyLength.short_memoir false 8 rich []).2.1).credits_balance
        = 50 ∧
     ((generate_biography_with_credits BiographyLength.short_memoir false 8 rich []).2.1).total_credits_purchased
        = 50 ∧
     ((generate_biography_with_credits BiographyLength.short_memoir false 8 rich []).2.1).total_credits_spent
        = 50 ∧
     (generate_biography_with_credits BiographyLength.short_memoir false 8 rich []).2.2
        = []) :=
  ⟨⟨by decide, by decide, by decide, by decide⟩,
   (c4_amended_refund_credits_without_ledger FictionLength.novella
      BiographyLength.short_memoir 7 8 rich []
      (by decide) (by decide) (by decide) (by decide)).1,
   (c4_amended_refund_credits_without_ledger FictionLength.novella
      BiographyLength.short_memoir 7 8 rich []
      (by decide) (by decide) (by decide) (by decide)).2⟩

/-- Claim C9: the failure-refund path restores credits through
User.add_credits, which increments total_credits_purchased together
with the balance; hence every refund of a failed N-credit job also
inflates the lifetime purchased counter by N, while the earlier debit
already raised total_credits_spent by N. Stated for add_credits and
for the failure path of both endpoints. -/
theorem c9_refund_inflates_purchased
    (v : User) (amount : Int)
    (flen : FictionLength) (blen : BiographyLength) (fsid bsid : Nat)
    (u : User) (txs : List Transaction)
    (hf : flen ≠ FictionLength.sample)
    (hfb : CREDIT_COSTS_fiction flen ≤ u.credits_balance)
    (hb : blen ≠ BiographyLength.sample)
    (hbb : CREDIT_COSTS_biography blen ≤ u.credits_balance) :
    ((v.add_credits amount).credits_balance = v.credits_balance + amount ∧
     (v.add_credits amount).total_credits_purchased
        = v.total_credits_purchased + amount) ∧
    (((generate_fiction_with_credits flen false fsid u txs).2.1).total_credits_purchased
        = u.total_credits_purchased + CREDIT_COSTS_fiction flen ∧
     ((generate_fiction_with_credits flen false fsid u txs).2.1).total_credits_spent
        = u.total_credits_spent + CREDIT_COSTS_fiction flen) ∧
    (((generate_biography_with_credits blen false bsid u txs).2.1).total_credits_purchased
        = u.total_credits_purchased + CREDIT_COSTS_biography blen ∧
     ((generate_biography_with_credits blen false bsid u txs).2.1).total_credits_spent
        = u.total_credits_spent + CREDIT_COSTS_biography blen) := by
  have hf2 : ¬ flen.value = "sample" := by
    simpa [FictionLength.fictionValueEqSample] using hf
  have hb2 : ¬ blen.value = "sample" := by
    simpa [BiographyLength.biographyValueEqSample] using hb
  refine ⟨⟨rfl, rfl⟩, ?_, ?_⟩
  · unfold generate_fiction_with_credits
    simp [hf2, not_lt.mpr hfb, User.deduct_credits_of_ge u _ hfb,
      User.add_credits]
  · unfold generate_biography_with_credits
    simp [hb2, not_lt.mpr hbb, User.deduct_credits_of_ge u _ hbb,
      User.add_credits]

/-- Witness for claim C9 at the concrete failed 50-credit jobs from
balance 50: both lifetime counters end at 50 although nothing was
purchased. -/
theorem c9_refund_inflates_purchased_witness :
    (FictionLength.novella ≠ FictionLength.sample ∧
     CREDIT_COSTS_fiction FictionLength.novella ≤ rich.credits_balance ∧
     BiographyLength.short_memoir ≠ BiographyLength.sample ∧
     CREDIT_COSTS_biography BiographyLength.short_memoir
       ≤ rich.credits_balance) ∧
    ((buyer.add_credits 20).credits_balance = 20 ∧
     (buyer.add_credits 20).total_credits_purchased = 20) ∧
    (((generate_fiction_with_credits FictionLength.novella false 7 rich []).2.1).total_credits_purchased
        = 50 ∧
     ((generate_fiction_with_credits FictionLength.novella false 7 rich []).2.1).total_credits_spent
        = 50) ∧
    (((generate_biography_with_credits BiographyLength.short_memoir false 8 rich []).2.1).total_credits_purchased
        = 50 ∧
     ((generate_biography_with_credits BiographyLength.short_memoir false 8 rich []).2.1).total_credits_spent
        = 50) :=
  ⟨⟨by decide, by decide, by decide, by decide⟩,
   (c9_refund_inflates_purchased buyer 20 FictionLength.novella
      BiographyLength.short_memoir 7 8 rich []
      (by decide) (by decide) (by decide) (by decide)).1,
   (c9_refund_inflates_purchased buyer 20 FictionLength.novella
      BiographyLength.short_memoir 7 8 rich []
      (by decide) (by decide) (by decide) (by decide)).2.1,
   (c9_refund_inflates_purchased buyer 20 FictionLength.novella
      BiographyLength.short_memoir 7 8 rich []
      (by decide) (by decide) (by decide) (by decide)).2.2⟩

/-- Claim C10 counterexample: under the schedule that lets both
requests run the line 52 balance check before either performs the
line 53 write, both checks see 100, both debits proceed, and the run
ends with both requests succeeded at balance -20: the claimed
exactly-one-succeeds-and-balance-40 property fails for this
interleaving of the unserialized check-then-debit. -/
theorem c10_counterexample_double_debit :
    ¬ concurrentDebitProperty [true, false, true, false] := by
  intro h
  have h2 := h (by decide) (by decide)
  exact absurd h2.2 (by decide)

/-- Claim C10 amended: when the two 60-credit requests run serially
(in either order) exactly one succeeds and the final balance is 40,
but the code does not serialize the check-then-debit: interleaving the
two checks before the two writes completes both requests successfully
and overdraws the account to -20. -/
theorem c10_amended_serial_ok_race_overdraws :
    ((raceRun raceInit [true, true, false, false]).ok1 = true ∧
     (raceRun raceInit [true, true, false, false]).ok2 = false ∧
     (raceRun raceInit [true, true, false, false]).credits_balance = 40) ∧
    ((raceRun raceInit [false, false, true, true]).ok1 = false ∧
     (raceRun raceInit [false, false, true, true]).ok2 = true ∧
     (raceRun raceInit [false, false, true, true]).credits_balance = 40) ∧
    ((raceRun raceInit [true, false, true, false]).pc1 = RacePC.done ∧
     (raceRun raceInit [true, false, true, false]).pc2 = RacePC.done ∧
     (raceRun raceInit [true, false, true, false]).ok1 = true ∧
     (raceRun raceInit [true, false, true, false]).ok2 = true ∧
     (raceRun raceInit [true, false, true, false]).credits_balance = -20) := by
  decide

end Ghostwriter
